import Mathlib

/-!
Shallow embedding of `src/static/app.js`: a client-side roster widget that
fetches activities, renders them with participant lists, submits signups and
unregisters participants.  Network calls are modelled by passing their outcome
(`Except Unit _` for a fetch or JSON decode that may throw) into the handler,
which returns the resulting DOM/effect state explicitly.
-/

namespace App

/-- An activity as decoded from the `GET /activities` JSON body
(`description`, `schedule`, `max_participants`, `participants`). -/
structure Activity where
  description : String
  schedule : String
  max_participants : Int
  participants : List String
deriving Repr, DecidableEq

/-- The roster: `Object.entries(activities)` — activity name paired with its
details, in server response order. -/
abbrev Roster := List (String × Activity)

/-- Line 21 of app.js: `const spotsLeft = details.max_participants -
details.participants.length;`. -/
def spotsLeft (d : Activity) : Int :=
  d.max_participants - (d.participants.length : Int)

/-- A DOM node.  `text` holds content assigned via `textContent` (stored as
character data, serialized with HTML escaping, never parsed as markup);
`raw` holds a string assigned via `innerHTML` (handed to the HTML parser,
so markup in it becomes live DOM).  Inline styles, titles and event-handler
wiring in the source are presentational and are not part of the node model. -/
inductive DomNode where
  | element (tag : String) (children : List DomNode)
  | text (s : String)
  | raw (s : String)
deriving Repr

/-- HTML escaping of one character of a text node, as performed when the
browser serializes character data. -/
def escapeHTMLChar (c : Char) : List Char :=
  if c = '&' then ['&', 'a', 'm', 'p', ';']
  else if c = '<' then ['&', 'l', 't', ';']
  else if c = '>' then ['&', 'g', 't', ';']
  else [c]

/-- HTML escaping of a character list. -/
def escapeChars : List Char → List Char
  | [] => []
  | c :: cs => escapeHTMLChar c ++ escapeChars cs

/-- HTML escaping of the content of a text node. -/
def escapeHTML (s : String) : String := ⟨escapeChars s.data⟩

mutual

/-- HTML serialization of a node: text nodes are escaped, `raw` markup is
emitted verbatim (the browser parsed it as markup when `innerHTML` was
assigned). -/
def serialize : DomNode → String
  | .text s => escapeHTML s
  | .raw s => s
  | .element tag children => "<" ++ tag ++ ">" ++ serializeList children ++ "</" ++ tag ++ ">"

/-- HTML serialization of a list of sibling nodes. -/
def serializeList : List DomNode → String
  | [] => ""
  | n :: ns => serialize n ++ serializeList ns

end

/-- Lines 35-54 of app.js: the `<li>` built for one participant — a `<span>`
whose `textContent` is the email, and a delete button whose `innerHTML` is the
wastebasket glyph (its `onclick` targets `unregisterParticipant(name, email)`,
modelled separately as `unregisterParticipant`). -/
def participantLi (email : String) : DomNode :=
  .element "li" [.element "span" [.text email], .element "button" [.raw "🗑️"]]

/-- Lines 24-62 of app.js: the participants section — a `<strong>` label, then
either a `<ul>` of participant `<li>`s or a no-participants `<span>`. -/
def participantsSection (d : Activity) : DomNode :=
  .element "div"
    (.element "strong" [.text "Participants:"] ::
      (if d.participants.length > 0 then
        [.element "ul" (d.participants.map participantLi)]
      else
        [.element "span" [.text "No participants yet"]]))

/-- Lines 64-69 of app.js: the template literal assigned to
`activityCard.innerHTML`, with `name`, `details.description`,
`details.schedule` and `spotsLeft` interpolated unescaped. -/
def cardInnerHTML (name : String) (d : Activity) : String :=
  "\n          <h4>" ++ name ++ "</h4>\n          <p>" ++ d.description ++
    "</p>\n          <p><strong>Schedule:</strong> " ++ d.schedule ++
    "</p>\n          <p><strong>Availability:</strong> " ++ toString (spotsLeft d) ++
    " spots left</p>\n        "

/-- Lines 18-72 of app.js: one activity card — the `innerHTML` markup followed
by the appended participants section. -/
def activityCard (name : String) (d : Activity) : DomNode :=
  .element "div" [.raw (cardInnerHTML name d), participantsSection d]

/-- The page elements `fetchActivities` mutates: the `#activities-list`
container children and the `<option>` values of the `#activity` select. -/
structure PageState where
  activitiesList : List DomNode
  selectOptions : List String
deriving Repr

/-- An observable side effect of a handler: an HTTP request issued via
`fetch`, a `console.error` call, or a blocking `alert`. -/
inductive Action where
  | fetchReq (method url : String) (contentType : Option String) (body : Option String)
  | consoleError (msg : String)
  | alertShown (msg : String)
deriving Repr, DecidableEq

/-- Whether an action is an HTTP request. -/
def Action.isFetchReq : Action → Bool
  | .fetchReq _ _ _ _ => true
  | _ => false

/-- Line 81 of app.js: the static markup installed on load failure. -/
def failedNotice : String := "<p>Failed to load activities. Please try again later.</p>"

/-- Result of one `fetchActivities()` invocation: the new page state plus the
trace of actions the invocation performed. -/
structure LoadResult where
  page : PageState
  actions : List Action
deriving Repr

/-- Lines 8-84 of app.js, `fetchActivities`: one `fetch("/activities")` is
issued; its combined fetch/JSON-decode outcome is the `r` argument.  On
success the list container is cleared and repopulated with one card per
activity, and one `<option>` per activity is appended to the select (the
select is never cleared).  On a thrown error the catch block replaces the
list content with `failedNotice` and logs; it issues no further request. -/
def fetchActivities (st : PageState) (r : Except Unit Roster) : LoadResult :=
  match r with
  | .ok activities =>
    { page :=
        { activitiesList := activities.map (fun p => activityCard p.1 p.2)
          selectOptions := st.selectOptions ++ activities.map (fun p => p.1) }
      actions := [.fetchReq "GET" "/activities" none none] }
  | .error _ =>
    { page :=
        { activitiesList := [.raw failedNotice]
          selectOptions := st.selectOptions }
      actions := [.fetchReq "GET" "/activities" none none,
                  .consoleError "Error fetching activities:"] }

/-- Uppercase hexadecimal digit for `n < 16`. -/
def hexDigitUpper (n : Nat) : Char :=
  if n < 10 then Char.ofNat (48 + n) else Char.ofNat (55 + n)

/-- Lowercase hexadecimal digit for `n < 16`. -/
def hexDigitLower (n : Nat) : Char :=
  if n < 10 then Char.ofNat (48 + n) else Char.ofNat (87 + n)

/-- UTF-8 code units of one code point, as a list of byte values (the lead
byte of the 4-byte form masks the high bits, as the bit-level encoder does). -/
def utf8Bytes (c : Char) : List Nat :=
  let n := c.toNat
  if n < 128 then [n]
  else if n < 2048 then [192 + n / 64, 128 + n % 64]
  else if n < 65536 then [224 + n / 4096, 128 + (n / 64) % 64, 128 + n % 64]
  else [240 + (n / 262144) % 8, 128 + (n / 4096) % 64, 128 + (n / 64) % 64, 128 + n % 64]

/-- Percent-encoding of one byte value: a percent sign followed by two
uppercase hex digits, as produced by `encodeURIComponent`. -/
def percentByte (b : Nat) : List Char :=
  ['%', hexDigitUpper (b / 16), hexDigitUpper (b % 16)]

/-- The characters `encodeURIComponent` leaves unescaped (ECMAScript
`uriUnescaped`): ASCII letters, digits, and `- _ . ! ~ * ( )` and the
apostrophe (code 39). -/
def isUriUnescaped (c : Char) : Bool :=
  (65 ≤ c.toNat && c.toNat ≤ 90) || (97 ≤ c.toNat && c.toNat ≤ 122) ||
  (48 ≤ c.toNat && c.toNat ≤ 57) ||
  c = '-' || c = '_' || c = '.' || c = '!' || c = '~' || c = '*' ||
  c = Char.ofNat 39 || c = '(' || c = ')'

/-- The percent-encoded form of one character: the percent-encodings of its
UTF-8 bytes, concatenated. -/
def percentEncode (c : Char) : List Char :=
  (utf8Bytes c).foldr (fun b a => percentByte b ++ a) []

/-- Character-list worker for `encodeURIComponent`. -/
def uriEncodeChars : List Char → List Char
  | [] => []
  | c :: cs => (if isUriUnescaped c then [c] else percentEncode c) ++ uriEncodeChars cs

/-- ECMAScript `encodeURIComponent`: unescaped characters pass through, every
other character is replaced by the percent-encoding of its UTF-8 bytes. -/
def encodeURIComponent (s : String) : String :=
  ⟨uriEncodeChars s.data⟩

/-- JSON escaping of one character, as performed by `JSON.stringify` on a
string value: quote and backslash are escaped, the named control escapes are
used where they exist, other control characters get a `\u00XX` escape. -/
def jsonEscapeChar (c : Char) : List Char :=
  if c = Char.ofNat 34 then ['\\', Char.ofNat 34]
  else if c = '\\' then ['\\', '\\']
  else if c = Char.ofNat 8 then ['\\', 'b']
  else if c = Char.ofNat 9 then ['\\', 't']
  else if c = Char.ofNat 10 then ['\\', 'n']
  else if c = Char.ofNat 12 then ['\\', 'f']
  else if c = Char.ofNat 13 then ['\\', 'r']
  else if c.toNat < 32 then
    ['\\', 'u', '0', '0', hexDigitLower (c.toNat / 16), hexDigitLower (c.toNat % 16)]
  else [c]

/-- `JSON.stringify` applied to a string value: the escaped characters wrapped
in double quotes. -/
def jsonQuote (s : String) : String :=
  ⟨Char.ofNat 34 :: s.data.foldr (fun c acc => jsonEscapeChar c ++ acc) [Char.ofNat 34]⟩

/-- Line 137 of app.js: JSON.stringify applied to the one-field object whose
`email` property holds the email string. -/
def jsonEmailBody (email : String) : String :=
  "\x7b\"email\":" ++ jsonQuote email ++ "\x7d"

/-- Line 95 of app.js: the signup request target,
`/activities/` + encoded activity + `/signup?email=` + encoded email. -/
def signupUrl (activity email : String) : String :=
  "/activities/" ++ encodeURIComponent activity ++ "/signup?email=" ++ encodeURIComponent email

/-- Line 131 of app.js: the unregister request target. -/
def unregisterUrl (activity : String) : String :=
  "/activities/" ++ encodeURIComponent activity ++ "/unregister"

/-- The message div `#message`: its `textContent`, its `className`, and
whether the `hidden` class is currently present. -/
structure MessageDiv where
  textContent : String
  className : String
  hiddenClass : Bool
deriving Repr, DecidableEq

/-- The JSON body of a signup response as the handler reads it: the optional
`message` and `detail` string properties. -/
structure SignupBody where
  message : Option String
  detail : Option String
deriving Repr, DecidableEq

/-- A signup response that arrived: its `ok` flag (status in 200-299) and the
outcome of `response.json()` (which throws on a non-JSON body). -/
structure SignupResponse where
  ok : Bool
  body : Except Unit SignupBody
deriving Repr

/-- JavaScript `x || fallback` on an optional string property: the fallback is
taken when the property is absent (undefined) or is the empty string, the two
falsy cases a string property can have. -/
def jsOrElse (x : Option String) (fallback : String) : String :=
  match x with
  | some s => if s = "" then fallback else s
  | none => fallback

/-- JavaScript string coercion of an optional property assigned to
`textContent`: an absent property is `undefined` and coerces to the string
`undefined`. -/
def jsToText (x : Option String) : String :=
  match x with
  | some s => s
  | none => "undefined"

/-- Effects of one signup form submission. -/
structure SignupEffects where
  message : MessageDiv
  formReset : Bool
  loadCalls : Nat
  timersScheduled : Nat
  actions : List Action
deriving Repr, DecidableEq

/-- Lines 87-125 of app.js, the submit handler: a `POST` with no body is
issued to `signupUrl`; `response.json()` is awaited before `response.ok` is
inspected, so a non-JSON body throws into the catch block for any status.
On `ok`: success message, form reset, one `fetchActivities()` call.  On a
non-2xx JSON response: `result.detail || "An error occurred"`, no reset, no
reload.  Both non-throwing paths unhide the div and schedule one 5000 ms hide
timer; the catch path shows a fixed message, unhides, and schedules none. -/
def signupSubmit (activity email : String) (resp : Except Unit SignupResponse) : SignupEffects :=
  let req : Action := .fetchReq "POST" (signupUrl activity email) none none
  match resp with
  | .error _ =>
    { message := { textContent := "Failed to sign up. Please try again.", className := "error", hiddenClass := false }
      formReset := false, loadCalls := 0, timersScheduled := 0
      actions := [req, .consoleError "Error signing up:"] }
  | .ok r =>
    match r.body with
    | .error _ =>
      { message := { textContent := "Failed to sign up. Please try again.", className := "error", hiddenClass := false }
        formReset := false, loadCalls := 0, timersScheduled := 0
        actions := [req, .consoleError "Error signing up:"] }
    | .ok result =>
      if r.ok then
        { message := { textContent := jsToText result.message, className := "success", hiddenClass := false }
          formReset := true, loadCalls := 1, timersScheduled := 1
          actions := [req] }
      else
        { message := { textContent := jsOrElse result.detail "An error occurred", className := "error", hiddenClass := false }
          formReset := false, loadCalls := 0, timersScheduled := 1
          actions := [req] }

/-- Effects of one `unregisterParticipant` invocation.  `statusBanner` is the
change the handler makes to the `#message` status banner: the function body
never touches it, so it is `none` on every path. -/
structure UnregisterEffects where
  loadCalls : Nat
  alerts : List String
  statusBanner : Option MessageDiv
  actions : List Action
deriving Repr, DecidableEq

/-- Lines 128-148 of app.js, `unregisterParticipant`: a `POST` carrying the
email as a JSON body with `Content-Type: application/json`.  On `ok` (2xx):
one `fetchActivities()` call.  On a non-2xx response or a thrown error: a
blocking alert, no reload. -/
def unregisterParticipant (activity email : String) (resp : Except Unit Bool) : UnregisterEffects :=
  let req : Action :=
    .fetchReq "POST" (unregisterUrl activity) (some "application/json") (some (jsonEmailBody email))
  match resp with
  | .ok true => { loadCalls := 1, alerts := [], statusBanner := none, actions := [req] }
  | .ok false =>
    { loadCalls := 0, alerts := ["Failed to unregister participant."], statusBanner := none
      actions := [req] }
  | .error _ =>
    { loadCalls := 0, alerts := ["Error unregistering participant."], statusBanner := none
      actions := [req] }

/-- A history of status-banner shows: each entry is the time (ms) at which a
signup completion wrote the message and unhid the div, paired with whether
that path also ran `setTimeout(() => messageDiv.classList.add("hidden"),
5000)` (true on the two non-throwing paths, false on the catch path). -/
abbrev ShowEvents := List (Nat × Bool)

/-- The firing times of all scheduled hide timers: each scheduling show plus
5000 ms.  Timers are never cleared, so every scheduled timer fires. -/
def fireTimes (evs : ShowEvents) : List Nat :=
  evs.filterMap (fun e => if e.2 then some (e.1 + 5000) else none)

/-- Whether the banner is visible at time `t` (event times assumed pairwise
distinct): the div starts hidden, each show removes the `hidden` class, each
timer firing adds it back, so the banner is visible exactly when some show at
`s ≤ t` has no timer firing in the interval `(s, t]`. -/
def visibleAt (evs : ShowEvents) (t : Nat) : Bool :=
  evs.any (fun e =>
    decide (e.1 ≤ t) && !((fireTimes evs).any (fun f => decide (e.1 < f) && decide (f ≤ t))))

/-- The spec scenario activity (section 8): description `d`, schedule `s`,
10 maximum, one participant. -/
def chessActivity : Activity :=
  { description := "d", schedule := "s", max_participants := 10, participants := ["a@x.com"] }

/-- A one-activity roster used for concrete evaluations. -/
def chessRoster : Roster := [("Chess Club", chessActivity)]

/-- An initial page state with an empty list and selector. -/
def initialPage : PageState := { activitiesList := [], selectOptions := [] }

/-- Every character produced by escaping one character is neither `<` nor
`>`: escaped text can never open or close a tag. -/
lemma mem_escapeHTMLChar {c0 c : Char} (h : c ∈ escapeHTMLChar c0) :
    c ≠ '<' ∧ c ≠ '>' := by
  unfold escapeHTMLChar at h
  split at h
  · simp at h
    rcases h with rfl | rfl | rfl | rfl | rfl <;> exact ⟨by decide, by decide⟩
  · split at h
    · simp at h
      rcases h with rfl | rfl | rfl | rfl <;> exact ⟨by decide, by decide⟩
    · split at h
      · simp at h
        rcases h with rfl | rfl | rfl | rfl <;> exact ⟨by decide, by decide⟩
      · simp at h
        subst h
        constructor <;> intro hc <;> simp [hc] at *

/-- Every character of an escaped character list is neither `<` nor `>`. -/
lemma mem_escapeChars {l : List Char} {c : Char} (h : c ∈ escapeChars l) :
    c ≠ '<' ∧ c ≠ '>' := by
  induction l with
  | nil => simp [escapeChars] at h
  | cons c0 cs ih =>
    rw [escapeChars, List.mem_append] at h
    rcases h with h | h
    · exact mem_escapeHTMLChar h
    · exact ih h

/-- Every character of the percent-encoding of a byte below 256 is the
percent sign, a decimal digit, or an uppercase hex letter. -/
lemma mem_percentByte {b : Nat} (hb : b < 256) {c : Char} (h : c ∈ percentByte b) :
    c = '%' ∨ (48 ≤ c.toNat ∧ c.toNat ≤ 57) ∨ (65 ≤ c.toNat ∧ c.toNat ≤ 70) := by
  have hhex : ∀ m : Nat, m < 16 →
      (48 ≤ (hexDigitUpper m).toNat ∧ (hexDigitUpper m).toNat ≤ 57) ∨
      (65 ≤ (hexDigitUpper m).toNat ∧ (hexDigitUpper m).toNat ≤ 70) := by
    intro m hm
    interval_cases m <;> simp [hexDigitUpper]
  unfold percentByte at h
  simp at h
  rcases h with rfl | rfl | rfl
  · exact Or.inl rfl
  · rcases hhex (b / 16) (by omega) with hd | hd
    · exact Or.inr (Or.inl hd)
    · exact Or.inr (Or.inr hd)
  · rcases hhex (b % 16) (by omega) with hd | hd
    · exact Or.inr (Or.inl hd)
    · exact Or.inr (Or.inr hd)

/-- Every byte value in the UTF-8 encoding of a character is below 256. -/
lemma mem_utf8Bytes_lt {c : Char} {b : Nat} (h : b ∈ utf8Bytes c) : b < 256 := by
  simp only [utf8Bytes] at h
  split at h
  · simp at h; omega
  · split at h
    · simp at h
      rcases h with rfl | rfl <;> omega
    · split at h
      · simp at h
        rcases h with rfl | rfl | rfl <;> omega
      · simp at h
        have h8 : c.toNat / 262144 % 8 < 8 := Nat.mod_lt _ (by omega)
        rcases h with rfl | rfl | rfl | rfl <;> omega

/-- Every character of the percent-encoded form of a character is the percent
sign, a decimal digit, or an uppercase hex letter. -/
lemma mem_percentEncode {c0 c : Char} (h : c ∈ percentEncode c0) :
    c = '%' ∨ (48 ≤ c.toNat ∧ c.toNat ≤ 57) ∨ (65 ≤ c.toNat ∧ c.toNat ≤ 70) := by
  unfold percentEncode at h
  have main : ∀ l : List Nat, (∀ b ∈ l, b < 256) →
      c ∈ l.foldr (fun b a => percentByte b ++ a) [] →
      c = '%' ∨ (48 ≤ c.toNat ∧ c.toNat ≤ 57) ∨ (65 ≤ c.toNat ∧ c.toNat ≤ 70) := by
    intro l
    induction l with
    | nil => intro _ hc; simp at hc
    | cons b bs ih =>
      intro hlt hc
      rw [List.foldr_cons, List.mem_append] at hc
      rcases hc with hc | hc
      · exact mem_percentByte (hlt b (List.mem_cons_self b bs)) hc
      · exact ih (fun x hx => hlt x (List.mem_cons_of_mem b hx)) hc
  exact main (utf8Bytes c0) (fun b hb => mem_utf8Bytes_lt hb) h

/-- Every character of an encoded URI component is either a character
`encodeURIComponent` leaves unescaped, the percent sign, a decimal digit, or
an uppercase hex letter. -/
lemma mem_uriEncodeChars {l : List Char} {c : Char} (h : c ∈ uriEncodeChars l) :
    isUriUnescaped c = true ∨ c = '%' ∨
      (48 ≤ c.toNat ∧ c.toNat ≤ 57) ∨ (65 ≤ c.toNat ∧ c.toNat ≤ 70) := by
  induction l with
  | nil => simp [uriEncodeChars] at h
  | cons c0 cs ih =>
    rw [uriEncodeChars, List.mem_append] at h
    rcases h with h | h
    · split at h
      · simp at h
        subst h
        exact Or.inl (by assumption)
      · exact Or.inr (mem_percentEncode h)
    · exact ih h

/-- No character of an encoded URI component is a URL delimiter: the encoded
activity and email cannot introduce a path separator, query delimiter,
parameter separator or fragment delimiter into the request target. -/
lemma encodeURIComponent_no_delims (s : String) (c : Char)
    (h : c ∈ (encodeURIComponent s).data) :
    c ≠ '/' ∧ c ≠ '?' ∧ c ≠ '&' ∧ c ≠ '#' := by
  have hc : c ∈ uriEncodeChars s.data := h
  rcases mem_uriEncodeChars hc with hu | hu | hu | hu
  · refine ⟨?_, ?_, ?_, ?_⟩ <;> rintro rfl <;> simp [isUriUnescaped] at hu
  · subst hu
    exact ⟨by decide, by decide, by decide, by decide⟩
  · refine ⟨?_, ?_, ?_, ?_⟩ <;> rintro rfl <;> revert hu <;> decide
  · refine ⟨?_, ?_, ?_, ?_⟩ <;> rintro rfl <;> revert hu <;> decide

/-- C1: for every roster fetch result and every activity in it, the card
rendered for that activity is in the rebuilt activities list, and its
innerHTML shows, on the availability line, a spots-left value equal to
`max_participants` minus the number of participants. -/
theorem c1_spots_left_rendered (st : PageState) (R : Roster) (n : String) (d : Activity)
    (h : (n, d) ∈ R) :
    activityCard n d ∈ (fetchActivities st (Except.ok R)).page.activitiesList ∧
    cardInnerHTML n d =
      ("\n          <h4>" ++ n ++ "</h4>\n          <p>" ++ d.description ++
        "</p>\n          <p><strong>Schedule:</strong> " ++ d.schedule ++
        "</p>\n          <p><strong>Availability:</strong> ") ++
      toString (d.max_participants - (d.participants.length : Int)) ++
      " spots left</p>\n        " := by
  have hlist : (fetchActivities st (Except.ok R)).page.activitiesList
      = R.map (fun p => activityCard p.1 p.2) := rfl
  refine ⟨?_, rfl⟩
  rw [hlist]
  exact List.mem_map.mpr ⟨(n, d), h, rfl⟩

/-- Witness for C1: the spec scenario roster renders the Chess Club card with
9 spots left. -/
theorem c1_spots_left_rendered_witness :
    activityCard "Chess Club" chessActivity ∈
      (fetchActivities initialPage (Except.ok chessRoster)).page.activitiesList ∧
    cardInnerHTML "Chess Club" chessActivity =
      ("\n          <h4>" ++ "Chess Club" ++ "</h4>\n          <p>" ++ chessActivity.description ++
        "</p>\n          <p><strong>Schedule:</strong> " ++ chessActivity.schedule ++
        "</p>\n          <p><strong>Availability:</strong> ") ++
      toString (chessActivity.max_participants - (chessActivity.participants.length : Int)) ++
      " spots left</p>\n        " :=
  c1_spots_left_rendered initialPage chessRoster "Chess Club" chessActivity (by decide)

/-- C2 counterexample: loading the same one-activity roster twice leaves the
selector with two options for one activity — options from the previous load
are not removed, refuting that the selector is replaced entirely. -/
theorem c2_selector_not_replaced_cex :
    (fetchActivities (fetchActivities initialPage (Except.ok chessRoster)).page
        (Except.ok chessRoster)).page.selectOptions = ["Chess Club", "Chess Club"] ∧
    chessRoster.length = 1 := by
  exact ⟨by decide, rfl⟩

/-- C2 amended: after a successful load the rendered activities list is
replaced entirely (one card per fetched activity, nothing retained from
before), but the selector options are appended to, not replaced: the
selector keeps every option it already had and gains one option per fetched
activity. -/
theorem c2_load_replaces_list_appends_options (st : PageState) (R : Roster) :
    (fetchActivities st (Except.ok R)).page.activitiesList =
      R.map (fun p => activityCard p.1 p.2) ∧
    (fetchActivities st (Except.ok R)).page.selectOptions =
      st.selectOptions ++ R.map (fun p => p.1) :=
  ⟨rfl, rfl⟩

/-- C3 counterexample: a second message shown at 3000 ms, before the first
timer at 5000 ms fires, is already hidden at 6000 ms — within its own 5000 ms
window — because the first message's timer is never cancelled. -/
theorem c3_timer_not_reset_cex :
    3000 < 0 + 5000 ∧ visibleAt [(0, true), (3000, true)] 6000 = false ∧
    3000 ≤ 6000 ∧ 6000 < 3000 + 5000 := by decide

/-- C3 amended: a message shown on a non-exception path with no other pending
timer is hidden exactly 5000 ms after being shown; a message shown on the
exception path schedules no timer and stays visible; pending timers are not
cancelled, so a newer message shown while an earlier timer is pending is
hidden once that earlier timer fires, before its own 5000 ms elapse. -/
theorem c3_message_hide_timing (t s : Nat) :
    (visibleAt [(t, true)] s = true ↔ t ≤ s ∧ s < t + 5000) ∧
    (visibleAt [(t, false)] s = true ↔ t ≤ s) ∧
    (∀ t2 u, t < t2 → t2 < t + 5000 → t + 5000 ≤ u →
      visibleAt [(t, true), (t2, true)] u = false) := by
  refine ⟨?_, ?_, ?_⟩
  · simp [visibleAt, fireTimes]
  · simp [visibleAt, fireTimes]
  · intro t2 u h1 h2 h3
    simp [visibleAt, fireTimes]
    omega

/-- Witness for C3 amended: a lone message is visible at 4999 ms and an
exception-path message is still visible at 9999 ms; a second message shown at
3000 ms is hidden at 5000 ms. -/
theorem c3_message_hide_timing_witness :
    visibleAt [(0, true)] 4999 = true ∧ visibleAt [(0, false)] 9999 = true ∧
    visibleAt [(0, true), (3000, true)] 5000 = false :=
  ⟨(c3_message_hide_timing 0 4999).1.mpr (by decide),
   (c3_message_hide_timing 0 9999).2.1.mpr (by decide),
   (c3_message_hide_timing 0 0).2.2 3000 5000 (by decide) (by decide) (by decide)⟩

/-- C4 counterexample: a failed signup whose body carries a present but empty
`detail` shows the fallback text, not the (empty) `detail` value, because the
JavaScript or-operator treats the empty string as falsy. -/
theorem c4_empty_detail_cex :
    (signupSubmit "Chess Club" "a@x.com"
        (Except.ok { ok := false, body := Except.ok { message := none, detail := some "" } })).message.textContent
      = "An error occurred" ∧
    ("" : String) ≠ "An error occurred" :=
  ⟨rfl, by decide⟩

/-- C4 amended: after a non-2xx signup response with a JSON body the form is
not reset, no reload happens, the banner has error styling, and the text
shown equals `detail` when it is present and non-empty, and equals the fixed
fallback when `detail` is absent or the empty string. -/
theorem c4_signup_failure_effects (a e : String) (b : SignupBody) :
    (signupSubmit a e (Except.ok { ok := false, body := Except.ok b })).formReset = false ∧
    (signupSubmit a e (Except.ok { ok := false, body := Except.ok b })).loadCalls = 0 ∧
    (signupSubmit a e (Except.ok { ok := false, body := Except.ok b })).message.className = "error" ∧
    (∀ s, b.detail = some s → s ≠ "" →
      (signupSubmit a e (Except.ok { ok := false, body := Except.ok b })).message.textContent = s) ∧
    ((b.detail = none ∨ b.detail = some "") →
      (signupSubmit a e (Except.ok { ok := false, body := Except.ok b })).message.textContent
        = "An error occurred") := by
  refine ⟨rfl, rfl, rfl, ?_, ?_⟩
  · intro s hs hne
    simp [signupSubmit, jsOrElse, hs, hne]
  · rintro (hd | hd) <;> simp [signupSubmit, jsOrElse, hd]

/-- Witness for C4 amended: a failed signup with a non-empty `detail` shows
exactly that detail text. -/
theorem c4_signup_failure_effects_witness :
    (signupSubmit "Chess Club" "a@x.com"
        (Except.ok { ok := false, body := Except.ok { message := none, detail := some "Activity full" } })).message.textContent
      = "Activity full" :=
  (c4_signup_failure_effects "Chess Club" "a@x.com"
      { message := none, detail := some "Activity full" }).2.2.2.1 "Activity full" rfl (by decide)

/-- C5: after a 2xx signup response with a JSON body carrying a message, that
message is shown with success styling and the banner unhidden, the form is
reset, and the reload runs exactly once. -/
theorem c5_signup_success_effects (a e m : String) (b : SignupBody) (hm : b.message = some m) :
    (signupSubmit a e (Except.ok { ok := true, body := Except.ok b })).message.textContent = m ∧
    (signupSubmit a e (Except.ok { ok := true, body := Except.ok b })).message.className = "success" ∧
    (signupSubmit a e (Except.ok { ok := true, body := Except.ok b })).message.hiddenClass = false ∧
    (signupSubmit a e (Except.ok { ok := true, body := Except.ok b })).formReset = true ∧
    (signupSubmit a e (Except.ok { ok := true, body := Except.ok b })).loadCalls = 1 := by
  refine ⟨?_, rfl, rfl, rfl, rfl⟩
  simp [signupSubmit, jsToText, hm]

/-- Witness for C5: a concrete successful signup shows the body message and
reloads once. -/
theorem c5_signup_success_effects_witness :
    (signupSubmit "Chess Club" "a@x.com"
        (Except.ok { ok := true, body := Except.ok { message := some "Signed up", detail := none } })).message.textContent
      = "Signed up" ∧
    (signupSubmit "Chess Club" "a@x.com"
        (Except.ok { ok := true, body := Except.ok { message := some "Signed up", detail := none } })).loadCalls
      = 1 :=
  ⟨(c5_signup_success_effects "Chess Club" "a@x.com" "Signed up"
      { message := some "Signed up", detail := none } rfl).1,
   (c5_signup_success_effects "Chess Club" "a@x.com" "Signed up"
      { message := some "Signed up", detail := none } rfl).2.2.2.2⟩

/-- C6: an unregister request with a 2xx response triggers one reload and no
alert; a non-2xx response or a thrown error shows a blocking alert, never
touches the transient status banner, and triggers no reload. -/
theorem c6_unregister_effects (a e : String) (r : Except Unit Bool) :
    (r = Except.ok true → (unregisterParticipant a e r).loadCalls = 1 ∧
      (unregisterParticipant a e r).alerts = []) ∧
    (r = Except.ok false → (unregisterParticipant a e r).loadCalls = 0 ∧
      (unregisterParticipant a e r).alerts = ["Failed to unregister participant."] ∧
      (unregisterParticipant a e r).statusBanner = none) ∧
    (r = Except.error () → (unregisterParticipant a e r).loadCalls = 0 ∧
      (unregisterParticipant a e r).alerts = ["Error unregistering participant."] ∧
      (unregisterParticipant a e r).statusBanner = none) := by
  refine ⟨?_, ?_, ?_⟩ <;> rintro rfl
  · exact ⟨rfl, rfl⟩
  · exact ⟨rfl, rfl, rfl⟩
  · exact ⟨rfl, rfl, rfl⟩

/-- Witness for C6: a concrete successful unregister reloads once; a concrete
failed unregister alerts and does not reload. -/
theorem c6_unregister_effects_witness :
    (unregisterParticipant "Chess Club" "a@x.com" (Except.ok true)).loadCalls = 1 ∧
    (unregisterParticipant "Chess Club" "a@x.com" (Except.ok false)).alerts
      = ["Failed to unregister participant."] ∧
    (unregisterParticipant "Chess Club" "a@x.com" (Except.ok false)).loadCalls = 0 :=
  ⟨((c6_unregister_effects "Chess Club" "a@x.com" (Except.ok true)).1 rfl).1,
   ((c6_unregister_effects "Chess Club" "a@x.com" (Except.ok false)).2.1 rfl).2.1,
   ((c6_unregister_effects "Chess Club" "a@x.com" (Except.ok false)).2.1 rfl).1⟩

/-- C7: when the roster fetch or its JSON decode throws, the handler returns
normally (the exception is caught), the list container content becomes the
static failed-to-load notice, the selector is untouched, the cause is logged,
and no further request is issued. -/
theorem c7_load_failure_effects (st : PageState) :
    (fetchActivities st (Except.error ())).page.activitiesList = [DomNode.raw failedNotice] ∧
    (fetchActivities st (Except.error ())).page.selectOptions = st.selectOptions ∧
    (fetchActivities st (Except.error ())).actions =
      [Action.fetchReq "GET" "/activities" none none,
       Action.consoleError "Error fetching activities:"] ∧
    (fetchActivities st (Except.error ())).actions.countP Action.isFetchReq = 1 :=
  ⟨rfl, rfl, rfl, rfl⟩

/-- C8: every signup submission issues a bodyless POST whose target is the
signup path with the percent-encoded activity and email; every unregister
issues a POST to the unregister path carrying the email as a JSON object body
with the JSON content type; no percent-encoded component can contain a URL
delimiter. -/
theorem c8_request_shapes (a e : String) (r : Except Unit SignupResponse)
    (u : Except Unit Bool) :
    (signupSubmit a e r).actions.head? =
      some (Action.fetchReq "POST"
        ("/activities/" ++ encodeURIComponent a ++ "/signup?email=" ++ encodeURIComponent e)
        none none) ∧
    (unregisterParticipant a e u).actions =
      [Action.fetchReq "POST" ("/activities/" ++ encodeURIComponent a ++ "/unregister")
        (some "application/json") (some ("\x7b\"email\":" ++ jsonQuote e ++ "\x7d"))] ∧
    (∀ c ∈ (encodeURIComponent a).data, c ≠ '/' ∧ c ≠ '?' ∧ c ≠ '&' ∧ c ≠ '#') ∧
    (∀ c ∈ (encodeURIComponent e).data, c ≠ '/' ∧ c ≠ '?' ∧ c ≠ '&' ∧ c ≠ '#') := by
  refine ⟨?_, ?_, fun c hc => encodeURIComponent_no_delims a c hc,
    fun c hc => encodeURIComponent_no_delims e c hc⟩
  · rcases r with _ | r
    · rfl
    · rcases r with ⟨ok, body⟩
      rcases body with _ | b
      · rfl
      · cases ok <;> rfl
  · rcases u with _ | b
    · rfl
    · cases b <;> rfl

/-- Witness for C8: the concrete signup request for the scenario inputs, and
the delimiter-freeness of a character of the encoded activity. -/
theorem c8_request_shapes_witness :
    (signupSubmit "Chess Club" "a@x.com" (Except.error ())).actions.head? =
      some (Action.fetchReq "POST"
        ("/activities/" ++ encodeURIComponent "Chess Club" ++ "/signup?email=" ++
          encodeURIComponent "a@x.com") none none) ∧
    ('C' ≠ '/' ∧ 'C' ≠ '?' ∧ 'C' ≠ '&' ∧ 'C' ≠ '#') :=
  ⟨(c8_request_shapes "Chess Club" "a@x.com" (Except.error ()) (Except.ok true)).1,
   (c8_request_shapes "Chess Club" "a@x.com" (Except.error ()) (Except.ok true)).2.2.1
     'C' (by decide)⟩

/-- C9: a signup response whose body fails to decode as JSON lands in the
catch branch regardless of its HTTP status, because the body is decoded
before `ok` is inspected: the fixed failure text is shown with error styling
and the banner unhidden, the form is not reset, no reload happens, and no
hide timer is scheduled. -/
theorem c9_signup_nonjson_body (a e : String) (ok : Bool) :
    signupSubmit a e (Except.ok { ok := ok, body := Except.error () }) =
      { message := { textContent := "Failed to sign up. Please try again.",
                     className := "error", hiddenClass := false }
        formReset := false, loadCalls := 0, timersScheduled := 0
        actions := [Action.fetchReq "POST" (signupUrl a e) none none,
                    Action.consoleError "Error signing up:"] } := rfl

/-- C10: each participant email becomes the text content of a span (a text
node, whose serialization escapes it so it can never contribute a tag),
while the activity name, description and schedule are interpolated raw into
the innerHTML template string, which the card holds as parsed markup
serialized verbatim. -/
theorem c10_participants_text_fields_markup (n : String) (d : Activity) (e : String)
    (he : e ∈ d.participants) :
    participantLi e = DomNode.element "li"
      [DomNode.element "span" [DomNode.text e],
       DomNode.element "button" [DomNode.raw "🗑️"]] ∧
    participantLi e ∈ d.participants.map participantLi ∧
    participantsSection d = DomNode.element "div"
      [DomNode.element "strong" [DomNode.text "Participants:"],
       DomNode.element "ul" (d.participants.map participantLi)] ∧
    serialize (DomNode.text e) = escapeHTML e ∧
    (∀ c ∈ (serialize (DomNode.text e)).data, c ≠ '<' ∧ c ≠ '>') ∧
    activityCard n d = DomNode.element "div"
      [DomNode.raw (cardInnerHTML n d), participantsSection d] ∧
    serialize (DomNode.raw (cardInnerHTML n d)) = cardInnerHTML n d := by
  have hser : serialize (DomNode.text e) = escapeHTML e := by
    simp [serialize]
  have hraw : serialize (DomNode.raw (cardInnerHTML n d)) = cardInnerHTML n d := by
    simp [serialize]
  have hpos : 0 < d.participants.length := List.length_pos.mpr (List.ne_nil_of_mem he)
  refine ⟨rfl, List.mem_map.mpr ⟨e, he, rfl⟩, ?_, hser, ?_, rfl, hraw⟩
  · simp [participantsSection, hpos]
  · intro c hc
    rw [hser] at hc
    exact mem_escapeChars hc

/-- Witness for C10: the scenario participant email is rendered as a text
node in the list, and its serialization is its escaped form. -/
theorem c10_participants_text_fields_markup_witness :
    participantLi "a@x.com" ∈ chessActivity.participants.map participantLi ∧
    serialize (DomNode.text "a@x.com") = escapeHTML "a@x.com" :=
  ⟨(c10_participants_text_fields_markup "Chess Club" chessActivity "a@x.com" (by decide)).2.1,
   (c10_participants_text_fields_markup "Chess Club" chessActivity "a@x.com"
      (by decide)).2.2.2.1⟩

end App
